import Mathlib

/-
Verification of the session-multiplexed streaming transport layer of
fleet-mcp (src/src/index.ts).

The registry `FleetMcpServer.transports : Record<string, SSEServerTransport>`
is modelled as an association list from session identifiers (String) to
transport identities (Nat), with JavaScript object semantics:
assignment replaces an existing key in place or appends a fresh one,
`delete` removes the key, property access looks the key up.
-/

abbrev Registry := List (String × Nat)

/-- Property read `this.transports[sessionId]` on the JS object. -/
def regLookup : Registry → String → Option Nat
  | [], _ => none
  | (k, v) :: rest, sid => if k = sid then some v else regLookup rest sid

/-- Property write `this.transports[sessionId] = transport`: replaces the
value under an existing key in place, otherwise appends the new key. -/
def regSet : Registry → String → Nat → Registry
  | [], sid, t => [(sid, t)]
  | (k, v) :: rest, sid, t =>
      if k = sid then (sid, t) :: rest else (k, v) :: regSet rest sid t

/-- Property removal `delete this.transports[sessionId]`. -/
def regDelete : Registry → String → Registry
  | [], _ => []
  | (k, v) :: rest, sid =>
      if k = sid then regDelete rest sid else (k, v) :: regDelete rest sid

/-- Key list of the registry object, in insertion order. -/
def regKeys : Registry → List String
  | [] => []
  | (k, _) :: rest => k :: regKeys rest

/-- Result of the POST /mcp/messages route handler (index.ts lines 119-146).
`missingSessionId` is the 400 response, `sessionNotFound` the 404 response;
`forwarded t` records that the message was handed to transport `t` via
`transport.handlePostMessage`, and `forwardError t` that the hand-off to
`t` threw and the catch block answered 500. -/
inductive MessageResult
  | missingSessionId
  | sessionNotFound
  | forwarded (t : Nat)
  | forwardError (t : Nat)
deriving DecidableEq, Repr

/-- HTTP status written by the route handler itself; `forwarded` delegates
the response to the transport, so the handler writes none. -/
def statusOf : MessageResult → Option Nat
  | .missingSessionId => some 400
  | .sessionNotFound => some 404
  | .forwarded _ => none
  | .forwardError _ => some 500

/-- Transport a message result was handed to, if any. -/
def targetOf : MessageResult → Option Nat
  | .forwarded t => some t
  | .forwardError t => some t
  | _ => none

/-- POST /mcp/messages handler (index.ts lines 119-146): reads the
`sessionId` query parameter (absent or empty is falsy in JS, giving the 400
branch), looks the session up in `this.transports` (404 if absent), and
otherwise forwards the body to the handlePostMessage of that transport;
`forwardFails` says whether that call throws. The handler never mutates
the registry. -/
def handleMessage (r : Registry) (q : Option String) (forwardFails : Bool) :
    MessageResult × Registry :=
  match q with
  | none => (.missingSessionId, r)
  | some sid =>
      if sid = "" then (.missingSessionId, r)
      else
        match regLookup r sid with
        | none => (.sessionNotFound, r)
        | some t => ((if forwardFails then .forwardError t else .forwarded t), r)

/-- Failure point while opening an SSE stream (GET /mcp handler,
index.ts lines 91-116): constructing the SSEServerTransport can throw, or
`this.mcpServer.connect(transport)` can throw after the transport was
already stored in `this.transports`. -/
inductive OpenFailure
  | constructionFailed
  | attachFailed
deriving DecidableEq, Repr

/-- Outcome of the GET /mcp handler as seen by the opening connection. -/
inductive OpenOutcome
  | streamEstablished (sid : String)
  | error500
deriving DecidableEq, Repr

/-- GET /mcp handler (index.ts lines 91-116): construct the transport,
store it under its session id, wire `onclose` to delete the entry, then
`await this.mcpServer.connect(transport)`. The catch block only logs and
answers 500: when construction itself threw nothing was stored, but when
`connect` threw the entry written before it remains in the registry. -/
def handleOpen (r : Registry) (sid : String) (t : Nat)
    (failure : Option OpenFailure) : OpenOutcome × Registry :=
  match failure with
  | some .constructionFailed => (.error500, r)
  | some .attachFailed => (.error500, regSet r sid t)
  | none => (.streamEstablished sid, regSet r sid t)

/-- Events that mutate the transport registry over the lifetime of the server:
a stream open (with its possible failure point), the `onclose` callback of
a transport firing (index.ts lines 102-105, which deletes the entry), and
the SIGINT sweep (index.ts lines 67-83) in which the transports whose
`close()` rejects — given by `fails` — are logged and kept, the rest
deleted. -/
inductive RegEvent
  | openStream (sid : String) (t : Nat) (failure : Option OpenFailure)
  | closeFired (sid : String)
  | sigintSweep (fails : String → Bool)

/-- One registry mutation. -/
def applyEvent (r : Registry) : RegEvent → Registry
  | .openStream sid t failure => (handleOpen r sid t failure).2
  | .closeFired sid => regDelete r sid
  | .sigintSweep fails => r.filter (fun p => fails p.1)

/-- Registry reached from the empty initial object after a sequence of
opens, closes and sweeps. -/
def runEvents (evs : List RegEvent) : Registry :=
  evs.foldl applyEvent []

/-- Result of the SIGINT shutdown sweep (index.ts lines 67-83):
`attempts` lists every session whose transport the loop called `close()`
on, in iteration order; `errorsLogged` the sessions whose close threw
(logged by the catch block); `remaining` the entries still in the registry
after the loop (a failed close skips the `delete`). -/
structure SweepResult where
  attempts : List String
  errorsLogged : List String
  remaining : Registry
deriving Repr

/-- The `for (const sessionId in this.transports)` loop of the SIGINT
handler: each entry is tried once; on success the entry is deleted, on
failure the error is logged and the loop moves on. -/
def sweepLoop : Registry → (String → Bool) → SweepResult
  | [], _ => ⟨[], [], []⟩
  | (sid, t) :: rest, fails =>
      let r := sweepLoop rest fails
      if fails sid then
        ⟨sid :: r.attempts, sid :: r.errorsLogged, (sid, t) :: r.remaining⟩
      else
        ⟨sid :: r.attempts, r.errorsLogged, r.remaining⟩

/-- The whole SIGINT handler: runs the sweep over the registry, closes the
HTTP server, and then calls `process.exit(0)` unconditionally — the exit
code does not depend on whether any close failed. -/
def sigintHandler (r : Registry) (fails : String → Bool) : SweepResult × Nat :=
  (sweepLoop r fails, 0)

/-- Startup outcome of the process: the FLEET_API_KEY check at index.ts
lines 21-24 (a missing or empty — falsy — key logs and exits with code 1
before the server is even constructed); binding the listening endpoint in
`start` can fail (fatal, nothing handles the listen error); otherwise the
server runs. -/
inductive StartupOutcome
  | fatalExit (code : Nat)
  | bindFailed
  | running
deriving DecidableEq, Repr

/-- Process startup (index.ts lines 21-24 and 1799-1811). -/
def startupRun (apiKey : Option String) (bindOk : Bool) : StartupOutcome :=
  if apiKey = none ∨ apiKey = some "" then .fatalExit 1
  else if bindOk then .running else .bindFailed

/-- A request reaching the core after startup. -/
inductive CoreRequest
  | openStream (sid : String) (t : Nat) (failure : Option OpenFailure)
  | postMessage (q : Option String) (forwardFails : Bool)

/-- One request step of the running server, paired with the exit code it
produces, if any: both route handlers catch their errors and answer with
an HTTP status, neither ever calls `process.exit`. -/
def coreStep (r : Registry) : CoreRequest → Registry × Option Nat
  | .openStream sid t failure => ((handleOpen r sid t failure).2, none)
  | .postMessage q ff => ((handleMessage r q ff).2, none)

/-- States of a stream transport, per the state machine of the spec
Created → Open → Closing → Closed. -/
inductive TState
  | created
  | topen
  | closing
  | closed
deriving DecidableEq, Repr

/-- A stream transport together with the number of times its `onclose`
callback has fired. -/
structure STransport where
  st : TState
  onCloseCount : Nat
deriving DecidableEq, Repr

/-- Modelled from the spec: SSEServerTransport.close is implemented in the
MCP SDK; src/ only declares it (close(): Promise<void>, onclose: () => void)
and wires onclose at index.ts lines 102-105 to delete the registry
entry. Per spec section 4.2, close() is idempotent: the first close from any
context performs teardown, moves the transport to the terminal Closed state
and invokes the registered on_close exactly once — here, removing the
session from the registry; later closes are no-ops. -/
def closeTransport (sid : String) (t : STransport) (r : Registry) :
    STransport × Registry :=
  match t.st with
  | .closing => (t, r)
  | .closed => (t, r)
  | _ => (⟨.closed, t.onCloseCount + 1⟩, regDelete r sid)

/-
Model of the list_host_software tool handler (index.ts lines 197-259).
A software item of the Fleet API response carries a name, an
installed_versions field that is either null (`none`) or an array, and a
status that is either null or a string.
-/

structure SoftwareItem where
  name : String
  installed_versions : Option (List String)
  status : Option String
deriving DecidableEq, Repr

/-- The installed-only filter predicate of the handler:
`sw.installed_versions !== null || sw.status === "installed"`. -/
def isInstalledSw (sw : SoftwareItem) : Bool :=
  sw.installed_versions.isSome || sw.status == some "installed"

/-- JavaScript String.prototype.includes for a non-empty pattern. -/
def jsIncludes (s pat : String) : Bool :=
  (s.splitOn pat).length ≠ 1

/-- The name filter of the handler: applied only when software_name is
truthy (present and non-empty), keeping the items whose lowercased name
contains the lowercased pattern. -/
def applyNameFilter (nm : Option String) (items : List SoftwareItem) :
    List SoftwareItem :=
  match nm with
  | none => items
  | some n =>
      if n = "" then items
      else items.filter (fun sw => jsIncludes sw.name.toLower n.toLower)

/-- Response shape of the handler: the (filtered) software list and the
count field it overwrites with the length of the list. -/
structure SoftwareResult where
  software : List SoftwareItem
  count : Nat
deriving DecidableEq, Repr

/-- The list_host_software handler (index.ts lines 197-259), from the
point where the Fleet API response `items` is in hand:
`effectiveInstalledOnly` starts as `params.installed_only !== false` and
is overwritten to false when `params.available_for_install === true`;
when it holds the installed-only filter runs, then the name filter, and
finally count is set to the length of the filtered list. -/
def listHostSoftware (items : List SoftwareItem)
    (available_for_install installed_only : Option Bool)
    (software_name : Option String) : SoftwareResult :=
  let effectiveInstalledOnly :=
    if available_for_install = some true then false
    else installed_only ≠ some false
  let software1 :=
    if effectiveInstalledOnly then items.filter isInstalledSw else items
  let software2 := applyNameFilter software_name software1
  ⟨software2, software2.length⟩

/-- The filtering pipeline as the claim words it: with
available_for_install true the installed-only filter is skipped regardless
of installed_only; otherwise it is applied exactly when installed_only is
not the value false; the name filter runs on the result. Stated separately
from listHostSoftware so the two can be compared. -/
def listHostSoftwareSpec (items : List SoftwareItem)
    (available_for_install installed_only : Option Bool)
    (software_name : Option String) : List SoftwareItem :=
  applyNameFilter software_name
    (if available_for_install = some true then items
     else if installed_only ≠ some false then items.filter isInstalledSw
     else items)

/-
Helper lemmas about the registry object model.
-/

theorem regLookup_regDelete_self (r : Registry) (sid : String) :
    regLookup (regDelete r sid) sid = none := by
  induction r with
  | nil => simp [regDelete, regLookup]
  | cons p rest ih =>
      obtain ⟨k, v⟩ := p
      by_cases hk : k = sid
      · simp [regDelete, hk, ih]
      · simp [regDelete, regLookup, hk, ih]

theorem regLookup_regSet_self (r : Registry) (sid : String) (t : Nat) :
    regLookup (regSet r sid t) sid = some t := by
  induction r with
  | nil => simp [regSet, regLookup]
  | cons p rest ih =>
      obtain ⟨k, v⟩ := p
      by_cases hk : k = sid
      · simp [regSet, hk, regLookup]
      · simp [regSet, regLookup, hk, ih]

theorem regKeys_regSet_mem (r : Registry) (sid x : String) (t : Nat) :
    x ∈ regKeys (regSet r sid t) ↔ x ∈ regKeys r ∨ x = sid := by
  induction r with
  | nil => simp [regSet, regKeys]
  | cons p rest ih =>
      obtain ⟨k, v⟩ := p
      by_cases hk : k = sid
      · subst hk
        simp [regSet, regKeys]
        tauto
      · simp [regSet, regKeys, hk] at ih ⊢
        tauto

theorem regKeys_regSet_nodup (r : Registry) (sid : String) (t : Nat)
    (h : (regKeys r).Nodup) : (regKeys (regSet r sid t)).Nodup := by
  induction r with
  | nil => simp [regSet, regKeys]
  | cons p rest ih =>
      obtain ⟨k, v⟩ := p
      simp only [regKeys, List.nodup_cons] at h
      by_cases hk : k = sid
      · subst hk
        simpa [regSet, regKeys, List.nodup_cons] using h
      · have hrest := ih h.2
        have hmem : k ∉ regKeys (regSet rest sid t) := by
          rw [regKeys_regSet_mem]
          rintro (hin | heq)
          · exact h.1 hin
          · exact hk heq
        simp [regSet, regKeys, hk, List.nodup_cons]
        exact ⟨hmem, hrest⟩

theorem regKeys_regDelete_mem (r : Registry) (sid x : String) :
    x ∈ regKeys (regDelete r sid) → x ∈ regKeys r := by
  induction r with
  | nil => simp [regDelete]
  | cons p rest ih =>
      obtain ⟨k, v⟩ := p
      by_cases hk : k = sid
      · simp only [regDelete, hk, if_pos rfl, regKeys]
        intro hx
        exact List.mem_cons_of_mem _ (ih hx)
      · simp only [regDelete, if_neg hk, regKeys, List.mem_cons]
        rintro (hx | hx)
        · exact Or.inl hx
        · exact Or.inr (ih hx)

theorem regKeys_regDelete_nodup (r : Registry) (sid : String)
    (h : (regKeys r).Nodup) : (regKeys (regDelete r sid)).Nodup := by
  induction r with
  | nil => simp [regDelete, regKeys]
  | cons p rest ih =>
      obtain ⟨k, v⟩ := p
      simp only [regKeys, List.nodup_cons] at h
      by_cases hk : k = sid
      · simp only [regDelete, if_pos hk]
        exact ih h.2
      · have hmem : k ∉ regKeys (regDelete rest sid) := fun hin =>
          h.1 (regKeys_regDelete_mem rest sid k hin)
        simp only [regDelete, if_neg hk, regKeys, List.nodup_cons]
        exact ⟨hmem, ih h.2⟩

theorem regKeys_filter_mem (r : Registry) (p : String × Nat → Bool)
    (x : String) : x ∈ regKeys (r.filter p) → x ∈ regKeys r := by
  induction r with
  | nil => simp
  | cons q rest ih =>
      obtain ⟨k, v⟩ := q
      by_cases hp : p (k, v)
      · simp only [List.filter_cons, hp, if_pos rfl, regKeys, List.mem_cons]
        rintro (hx | hx)
        · exact Or.inl hx
        · exact Or.inr (ih hx)
      · simp only [List.filter_cons, hp, regKeys, List.mem_cons]
        intro hx
        exact Or.inr (ih (by simpa using hx))

theorem regKeys_filter_nodup (r : Registry) (p : String × Nat → Bool)
    (h : (regKeys r).Nodup) : (regKeys (r.filter p)).Nodup := by
  induction r with
  | nil => exact h
  | cons q rest ih =>
      obtain ⟨k, v⟩ := q
      simp only [regKeys, List.nodup_cons] at h
      by_cases hp : p (k, v)
      · have hmem : k ∉ regKeys (rest.filter p) := fun hin =>
          h.1 (regKeys_filter_mem rest p k hin)
        simp only [List.filter_cons, hp, if_pos rfl, regKeys, List.nodup_cons]
        exact ⟨hmem, ih h.2⟩
      · simp only [List.filter_cons, hp]
        simpa using ih h.2

theorem applyEvent_nodup (r : Registry) (e : RegEvent)
    (h : (regKeys r).Nodup) : (regKeys (applyEvent r e)).Nodup := by
  cases e with
  | openStream sid t failure =>
      cases failure with
      | none => exact regKeys_regSet_nodup r sid t h
      | some f =>
          cases f with
          | constructionFailed => simpa [applyEvent, handleOpen] using h
          | attachFailed =>
              simpa [applyEvent, handleOpen] using regKeys_regSet_nodup r sid t h
  | closeFired sid => exact regKeys_regDelete_nodup r sid h
  | sigintSweep fails => exact regKeys_filter_nodup r _ h

theorem runEvents_nodup (evs : List RegEvent) :
    (regKeys (runEvents evs)).Nodup := by
  suffices h : ∀ r : Registry, (regKeys r).Nodup →
      (regKeys (evs.foldl applyEvent r)).Nodup by
    exact h [] (by simp [regKeys])
  induction evs with
  | nil => intro r hr; simpa using hr
  | cons e rest ih =>
      intro r hr
      exact ih (applyEvent r e) (applyEvent_nodup r e hr)

theorem sweepLoop_attempts (r : Registry) (fails : String → Bool) :
    (sweepLoop r fails).attempts = regKeys r := by
  induction r with
  | nil => simp [sweepLoop, regKeys]
  | cons p rest ih =>
      obtain ⟨k, v⟩ := p
      by_cases hk : fails k
      · simp [sweepLoop, hk, regKeys, ih]
      · simp [sweepLoop, hk, regKeys, ih]

theorem sweepLoop_errorsLogged (r : Registry) (fails : String → Bool) :
    (sweepLoop r fails).errorsLogged =
      regKeys (r.filter (fun p => fails p.1)) := by
  induction r with
  | nil => simp [sweepLoop, regKeys]
  | cons p rest ih =>
      obtain ⟨k, v⟩ := p
      by_cases hk : fails k
      · simp [sweepLoop, hk, regKeys, List.filter_cons, ih]
      · simp [sweepLoop, hk, regKeys, List.filter_cons, ih]

theorem sweepLoop_remaining (r : Registry) (fails : String → Bool) :
    (sweepLoop r fails).remaining = r.filter (fun p => fails p.1) := by
  induction r with
  | nil => simp [sweepLoop]
  | cons p rest ih =>
      obtain ⟨k, v⟩ := p
      by_cases hk : fails k
      · simp [sweepLoop, hk, List.filter_cons, ih]
      · simp [sweepLoop, hk, List.filter_cons, ih]

/-
Claim theorems.
-/

/-- C1: handle_message first looks the session identifier up in the
registry; with no transport registered under it the result is
session_not_found (status 404) and the registry is unchanged; with a
transport present the message is forwarded to exactly that transport and
the registry is unchanged; and after an entry has been deleted (as the
onclose handler does), a submit tagged with that identifier returns
session_not_found. -/
theorem c1_handle_message_routes_by_registry (r : Registry) (sid : String)
    (ff : Bool) (h : sid ≠ "") :
    (regLookup r sid = none →
      handleMessage r (some sid) ff = (.sessionNotFound, r) ∧
      statusOf (handleMessage r (some sid) ff).1 = some 404) ∧
    (∀ t, regLookup r sid = some t →
      targetOf (handleMessage r (some sid) ff).1 = some t ∧
      (handleMessage r (some sid) ff).2 = r) ∧
    handleMessage (regDelete r sid) (some sid) ff =
      (.sessionNotFound, regDelete r sid) := by
  refine ⟨?_, ?_, ?_⟩
  · intro hnone
    simp [handleMessage, h, hnone, statusOf]
  · intro t ht
    cases ff <;> simp [handleMessage, h, ht, targetOf]
  · simp [handleMessage, h, regLookup_regDelete_self]

/-- Witness for C1 at the concrete registry [("abc", 7)]. -/
theorem c1_handle_message_routes_by_registry_witness :
    (regLookup [("abc", 7)] "abc" = none →
      handleMessage [("abc", 7)] (some "abc") false =
        (.sessionNotFound, [("abc", 7)]) ∧
      statusOf (handleMessage [("abc", 7)] (some "abc") false).1 = some 404) ∧
    (∀ t, regLookup [("abc", 7)] "abc" = some t →
      targetOf (handleMessage [("abc", 7)] (some "abc") false).1 = some t ∧
      (handleMessage [("abc", 7)] (some "abc") false).2 = [("abc", 7)]) ∧
    handleMessage (regDelete [("abc", 7)] "abc") (some "abc") false =
      (.sessionNotFound, regDelete [("abc", 7)] "abc") :=
  c1_handle_message_routes_by_registry [("abc", 7)] "abc" false (by decide)

/-- C2: over every sequence of stream opens, onclose-driven removals and
shutdown sweeps starting from the empty registry, the registry never holds
two transports under the same session identifier (its key list stays
nodup), and a lookup performed right after an identifier has been removed
reports not_found. -/
theorem c2_registry_unique_sessions :
    (∀ evs : List RegEvent, (regKeys (runEvents evs)).Nodup) ∧
    (∀ (r : Registry) (sid : String),
      regLookup (regDelete r sid) sid = none) :=
  ⟨runEvents_nodup, regLookup_regDelete_self⟩

/-- C3 counterexample: opening a stream whose attachment to the MCP server
fails leaves the transport registered — the catch block of the GET /mcp
handler does not remove the entry stored before connect threw, so partial
registration remains, contrary to the claim. -/
theorem c3_partial_registration_counterexample :
    regLookup (handleOpen [] "s1" 5 (some .attachFailed)).2 "s1" = some 5 ∧
    (handleOpen [] "s1" 5 (some .attachFailed)).1 = .error500 := by
  constructor <;> decide

/-- C3 amended: when transport construction fails nothing is registered
and the state is unchanged; but when attachment fails the handler answers
500 while the transport stays registered under its session identifier
(the entry only disappears when the onclose callback later fires). -/
theorem c3_open_failure_registration (r : Registry) (sid : String) (t : Nat) :
    handleOpen r sid t (some .constructionFailed) = (.error500, r) ∧
    (handleOpen r sid t (some .attachFailed)).1 = .error500 ∧
    regLookup (handleOpen r sid t (some .attachFailed)).2 sid = some t ∧
    regLookup
      (applyEvent (handleOpen r sid t (some .attachFailed)).2 (.closeFired sid))
      sid = none := by
  refine ⟨rfl, rfl, ?_, ?_⟩
  · simpa [handleOpen] using regLookup_regSet_self r sid t
  · simpa [handleOpen, applyEvent] using
      regLookup_regDelete_self (regSet r sid t) sid

/-- C4 counterexample: the code has no shutting-down guard — a stream open
arriving after the SIGINT sweep has drained the registry succeeds and adds
a fresh entry instead of failing with shutdown_in_progress. -/
theorem c4_no_shutdown_guard_counterexample :
    regLookup
      (handleOpen (sigintHandler [("s1", 1)] (fun _ => false)).1.remaining
        "s2" 2 none).2 "s2" = some 2 ∧
    (handleOpen (sigintHandler [("s1", 1)] (fun _ => false)).1.remaining
        "s2" 2 none).1 = .streamEstablished "s2" := by
  constructor <;> decide

/-- C4 amended: during the SIGINT sweep each registry entry is attempted
exactly once (the attempt list equals the key list and is nodup when the
registry keys are), so no drained transport is closed twice; but there is
no shutdown_in_progress guard: a register performed after the drain always
succeeds and adds a new entry. -/
theorem c4_drain_once_no_guard (r : Registry) (fails : String → Bool)
    (h : (regKeys r).Nodup) :
    (sigintHandler r fails).1.attempts = regKeys r ∧
    ((sigintHandler r fails).1.attempts).Nodup ∧
    (∀ (sid : String) (t : Nat),
      regLookup (handleOpen (sigintHandler r fails).1.remaining sid t none).2
        sid = some t) := by
  refine ⟨sweepLoop_attempts r fails, ?_, ?_⟩
  · have := sweepLoop_attempts r fails
    simpa [sigintHandler, this] using h
  · intro sid t
    simpa [handleOpen] using
      regLookup_regSet_self (sigintHandler r fails).1.remaining sid t

/-- Witness for C4 amended at a concrete two-entry registry with one
failing close. -/
theorem c4_drain_once_no_guard_witness :
    (sigintHandler [("a", 1), ("b", 2)] (fun s => s == "a")).1.attempts =
      regKeys [("a", 1), ("b", 2)] ∧
    ((sigintHandler [("a", 1), ("b", 2)] (fun s => s == "a")).1.attempts).Nodup ∧
    (∀ (sid : String) (t : Nat),
      regLookup
        (handleOpen
          (sigintHandler [("a", 1), ("b", 2)] (fun s => s == "a")).1.remaining
          sid t none).2 sid = some t) :=
  c4_drain_once_no_guard [("a", 1), ("b", 2)] (fun s => s == "a") (by decide)

/-- C5: the SIGINT sweep is best effort — whatever subset of transports
fails to close, every registry entry is attempted (the attempt list equals
the full key list, so one failure never prevents the close of another),
each failing session is logged by the catch block, and only then does the
handler produce its exit code. -/
theorem c5_sweep_best_effort (r : Registry) (fails : String → Bool) :
    (sweepLoop r fails).attempts = regKeys r ∧
    (sweepLoop r fails).errorsLogged =
      regKeys (r.filter (fun p => fails p.1)) ∧
    (sigintHandler r fails).1 = sweepLoop r fails :=
  ⟨sweepLoop_attempts r fails, sweepLoop_errorsLogged r fails, rfl⟩

/-- C6 counterexample: a sweep in which the only transport fails to close
still exits with code 0 — the SIGINT handler calls process.exit(0)
unconditionally, contrary to the claimed non-zero code on failure. -/
theorem c6_exit_zero_on_failure_counterexample :
    (sweepLoop [("s1", 1)] (fun _ => true)).errorsLogged = ["s1"] ∧
    (sigintHandler [("s1", 1)] (fun _ => true)).2 = 0 := by
  constructor <;> decide

/-- C6 amended: the exit code of the SIGINT handler is 0 regardless of
which transports failed to close; the sweep still attempts every
transport before the exit code is produced. -/
theorem c6_exit_code_always_zero (r : Registry) (fails : String → Bool) :
    (sigintHandler r fails).2 = 0 ∧
    (sigintHandler r fails).1.attempts = regKeys r :=
  ⟨rfl, sweepLoop_attempts r fails⟩

/-- C7: close is idempotent on an open transport — the second close (from
any context) leaves the pair (transport, registry) exactly as the first
left it, the first close reaches the terminal Closed state, fires the
registered on_close exactly once (the count rises by one and stays there),
and that on_close deregisters the session from the registry. -/
theorem c7_close_idempotent (sid : String) (t : STransport) (r : Registry)
    (h : t.st = .topen) :
    closeTransport sid (closeTransport sid t r).1 (closeTransport sid t r).2 =
      closeTransport sid t r ∧
    (closeTransport sid t r).1.st = .closed ∧
    (closeTransport sid t r).1.onCloseCount = t.onCloseCount + 1 ∧
    regLookup (closeTransport sid t r).2 sid = none := by
  obtain ⟨st, c⟩ := t
  simp only at h
  subst h
  simp [closeTransport, regLookup_regDelete_self]

/-- Witness for C7 at a concrete open transport registered under "s". -/
theorem c7_close_idempotent_witness :
    closeTransport "s" (closeTransport "s" ⟨.topen, 0⟩ [("s", 3)]).1
        (closeTransport "s" ⟨.topen, 0⟩ [("s", 3)]).2 =
      closeTransport "s" ⟨.topen, 0⟩ [("s", 3)] ∧
    (closeTransport "s" ⟨.topen, 0⟩ [("s", 3)]).1.st = .closed ∧
    (closeTransport "s" ⟨.topen, 0⟩ [("s", 3)]).1.onCloseCount = 0 + 1 ∧
    regLookup (closeTransport "s" ⟨.topen, 0⟩ [("s", 3)]).2 "s" = none :=
  c7_close_idempotent "s" ⟨.topen, 0⟩ [("s", 3)] (by decide)

/-- C8 counterexample: with no FLEET_API_KEY in the environment the
process terminates fatally with exit code 1 even though binding the
listening endpoint would have succeeded — a fatal termination that is not
a bind failure, contrary to the claim that bind failure is the only fatal
condition. -/
theorem c8_fatal_without_bind_failure_counterexample :
    startupRun none true = .fatalExit 1 ∧
    StartupOutcome.fatalExit 1 ≠ .bindFailed := by
  constructor <;> decide

/-- C8 amended: the process terminates abnormally in exactly two cases,
both at startup — a missing or empty FLEET_API_KEY exits with code 1, and
a bind failure occurs exactly when the key check passes but listening
fails; request handling (stream opens with any failure, message submits)
never produces an exit, and the SIGINT sweep always exits with code 0. -/
theorem c8_fatal_only_at_startup :
    (∀ (k : Option String) (b : Bool),
      startupRun k b = .fatalExit 1 ↔ (k = none ∨ k = some "")) ∧
    (∀ (k : Option String) (b : Bool),
      startupRun k b = .bindFailed ↔
        (¬(k = none ∨ k = some "") ∧ b = false)) ∧
    (∀ (r : Registry) (e : CoreRequest), (coreStep r e).2 = none) ∧
    (∀ (r : Registry) (fails : String → Bool),
      (sigintHandler r fails).2 = 0) := by
  refine ⟨?_, ?_, ?_, ?_⟩
  · intro k b
    by_cases hk : k = none ∨ k = some ""
    · simp [startupRun, hk]
    · cases b <;> simp [startupRun, hk]
  · intro k b
    by_cases hk : k = none ∨ k = some ""
    · simp [startupRun, hk]
    · cases b <;> simp [startupRun, hk]
  · intro r e
    cases e <;> rfl
  · intro r fails
    rfl

/-- C9: a POST /mcp/messages whose URL carries no sessionId query
parameter (absent, or present but empty and hence falsy) is answered with
the 400 missing-parameter error, the registry is left unchanged, the
result does not depend on the registry at all (the check runs before the
lookup), and this result is distinct from session_not_found. -/
theorem c9_missing_session_id (r : Registry) (ff : Bool) :
    handleMessage r none ff = (.missingSessionId, r) ∧
    handleMessage r (some "") ff = (.missingSessionId, r) ∧
    statusOf .missingSessionId = some 400 ∧
    MessageResult.missingSessionId ≠ .sessionNotFound ∧
    (handleMessage r none ff).1 = (handleMessage [] none ff).1 := by
  refine ⟨rfl, by simp [handleMessage], rfl, by decide, rfl⟩

/-- C10: the list_host_software handler equals its specification pipeline —
with available_for_install true the installed-only filter is skipped
regardless of installed_only, otherwise it is applied exactly when
installed_only is not the value false (keeping items whose
installed_versions is non-null or whose status is "installed"), the name
filter runs afterwards, and the returned count always equals the length of
the software list after all filtering. -/
theorem c10_list_host_software (items : List SoftwareItem)
    (ai io : Option Bool) (nm : Option String) :
    (listHostSoftware items ai io nm).software =
      listHostSoftwareSpec items ai io nm ∧
    (listHostSoftware items ai io nm).count =
      (listHostSoftware items ai io nm).software.length ∧
    (∀ io2, listHostSoftware items (some true) io nm =
      listHostSoftware items (some true) io2 nm) := by
  refine ⟨?_, rfl, ?_⟩
  · by_cases hai : ai = some true
    · simp [listHostSoftware, listHostSoftwareSpec, hai]
    · by_cases hio : io = some false
      · simp [listHostSoftware, listHostSoftwareSpec, hai, hio]
      · simp [listHostSoftware, listHostSoftwareSpec, hai, hio]
  · intro io2
    simp [listHostSoftware]
